import Mathlib

/-!
Shallow embedding of the Geetha Tex production-dashboard core
(`types.ts` and the application file given as `src/unnamed/part_000`).

Modelling conventions:
* JavaScript numbers that hold meter readings are modelled as `ℚ`
  (the code only does field arithmetic, `Math.round` and `toFixed` on them);
  machine counts and machine numbers are modelled as `ℤ`.
* JavaScript strings are modelled as `String`.
* The React context (`AppProvider`) is modelled as a record `AppState`;
  each mutating callback becomes a function `AppState → ... → AppState`.
  `setNotification msg` becomes setting the `notification` field.
* `Date.now()` is passed in explicitly as a `now : ℕ` argument.
* `Array.prototype.sort` with a numeric comparator `cmp` is, per ECMAScript
  2019 and later, a stable sort consistent with `cmp`; it is modelled as
  `List.mergeSort` with `le a b := cmp a b ≤ 0`.
-/

namespace GeethaTex

/-- `BatchStatus` from `types.ts`: `'In Progress' | 'Completed' | 'Delayed'`. -/
inductive BatchStatus where
  | inProgress
  | completed
  | delayed
deriving DecidableEq, Repr

/-- `Batch` from `types.ts`.  `startDate`/`endDate` are `YYYY-MM-DD` strings,
`meterValue` is a JS number (modelled `ℚ`), `name`/`color`/`image` are optional. -/
structure Batch where
  id : String
  name : Option String := none
  batchNumber : String
  machineNumber : ℤ
  startDate : String
  endDate : String
  meterValue : ℚ
  status : BatchStatus
  color : Option String := none
  image : Option String := none
deriving DecidableEq, Repr

/-- `CalculatedBatch` from `types.ts`: a `Batch` plus the derived
`ftotal` and `average` fields. -/
structure CalculatedBatch extends Batch where
  ftotal : ℤ
  average : ℚ
deriving DecidableEq, Repr

/-- `BatchType` from `types.ts`. -/
structure BatchType where
  id : String
  batchNumber : String
  color : String
deriving DecidableEq, Repr

/-- `Settings` from `types.ts`; `numberOfMachines` is a JS number entered
through `Number(e.target.value)`, modelled as `ℤ`. -/
structure Settings where
  companyName : String
  numberOfMachines : ℤ
deriving DecidableEq, Repr

/-- The mutable state held by `AppProvider`: settings (nullable), the batch
list, the batch-type list and the transient notification message.  The theme
plays no role in the claims and is omitted. -/
structure AppState where
  settings : Option Settings
  batches : List Batch
  batchTypes : List BatchType
  notification : Option String
deriving DecidableEq, Repr

/-- `Omit<Batch, 'id' | 'status' | 'name'>`: the argument type of `addBatch`. -/
structure BatchInput where
  batchNumber : String
  machineNumber : ℤ
  startDate : String
  endDate : String
  meterValue : ℚ
  color : Option String := none
  image : Option String := none
deriving DecidableEq, Repr

/-- `Omit<Batch, 'status'>`: the element type of `MOCK_BATCHES`. -/
structure MockBatch where
  id : String
  name : Option String := none
  batchNumber : String
  machineNumber : ℤ
  startDate : String
  endDate : String
  meterValue : ℚ
  color : Option String := none
  image : Option String := none
deriving DecidableEq, Repr

/-- The spread `{...b, status}` used when the seeding effect turns a
`MOCK_BATCHES` entry into a `Batch`. -/
def MockBatch.withStatus (b : MockBatch) (status : BatchStatus) : Batch :=
  { id := b.id, name := b.name, batchNumber := b.batchNumber,
    machineNumber := b.machineNumber, startDate := b.startDate,
    endDate := b.endDate, meterValue := b.meterValue, status := status,
    color := b.color, image := b.image }

/-- `MOCK_BATCHES` from the application file. -/
def MOCK_BATCHES : List MockBatch :=
  [ { id := "1", name := some "Autumn Collection Run 1", batchNumber := "ACR001",
      machineNumber := 1, startDate := "2023-10-01", endDate := "2023-10-05",
      meterValue := 1250.5, color := some "#16a34a" },
    { id := "2", name := some "Winter Fabric Prep", batchNumber := "WFP001",
      machineNumber := 2, startDate := "2023-10-03", endDate := "2023-10-08",
      meterValue := 2100.2, color := some "#16a34a" },
    { id := "3", name := some "Spring Pattern Test", batchNumber := "SPT001",
      machineNumber := 1, startDate := "2023-10-10", endDate := "2023-10-15",
      meterValue := 950.0, color := some "#f59e0b" },
    { id := "4", name := some "Holiday Special Edition", batchNumber := "HSE001",
      machineNumber := 3, startDate := "2023-10-12", endDate := "2023-10-20",
      meterValue := 3500.8, color := some "#f59e0b" },
    { id := "5", name := some "Denim Wash Experiment", batchNumber := "DWE001",
      machineNumber := 2, startDate := "2023-10-18", endDate := "2023-10-25",
      meterValue := 2200.7, color := some "#dc2626" } ]

/-- `MOCK_BATCH_TYPES` from the application file. -/
def MOCK_BATCH_TYPES : List BatchType :=
  [ { id := "1", batchNumber := "ACR001", color := "#16a34a" },
    { id := "2", batchNumber := "WFP001", color := "#06b6d4" },
    { id := "3", batchNumber := "SPT001", color := "#f59e0b" },
    { id := "4", batchNumber := "HSE001", color := "#ef4444" },
    { id := "5", batchNumber := "DWE001", color := "#3b82f6" },
    { id := "6", batchNumber := "SUMMER-LITE", color := "#eab308" } ]

/-- JavaScript whitespace test used by `String.prototype.trim` (the app only
ever submits ASCII text). -/
def isJsSpace (c : Char) : Bool :=
  c = ' ' || c = '\t' || c = '\n' || c = '\r'

/-- Model of `String.prototype.trim`: drop leading and trailing whitespace. -/
def jsTrim (s : String) : String :=
  ⟨((s.data.dropWhile isJsSpace).reverse.dropWhile isJsSpace).reverse⟩

/-- Model of `String.prototype.toUpperCase` on the ASCII strings the app
uses: upper-case every character. -/
def jsToUpper (s : String) : String :=
  ⟨s.data.map Char.toUpper⟩

/-- Model of JavaScript `Math.round` on rationals: round half toward
positive infinity, i.e. `⌊q + 1/2⌋`. -/
def jsRound (q : ℚ) : ℤ :=
  Rat.floor (q + 1/2)

/-- Model of `parseFloat(x.toFixed(2))` on rationals: round to the nearest
multiple of `1/100`, with a tie going to the larger value (the ECMAScript
`toFixed` tie rule picks the larger candidate). -/
def round2 (q : ℚ) : ℚ :=
  (jsRound (q * 100) : ℚ) / 100

/-- The body of the `calculatedBatches` `useMemo` map in the application file:
`ftotal = Math.round(batch.meterValue / 4)` and
`average = ftotal > 0 ? parseFloat((batch.meterValue / ftotal).toFixed(2)) : 0`. -/
def deriveBatch (batch : Batch) : CalculatedBatch :=
  let ftotal : ℤ := jsRound (batch.meterValue / 4)
  let average : ℚ :=
    if 0 < ftotal then round2 (batch.meterValue / (ftotal : ℚ)) else 0
  { toBatch := batch, ftotal := ftotal, average := average }

/-- Modelled from the spec (for the refinement claim about the derivation):
`ftotal(m) = round(m/4)`. -/
def ftotal_spec (m : ℚ) : ℤ :=
  jsRound (m / 4)

/-- Modelled from the spec (for the refinement claim about the derivation):
`average = ftotal == 0 ? 0 : round(meterValue/ftotal, 2 decimal places)`. -/
def average_spec (m : ℚ) : ℚ :=
  if ftotal_spec m = 0 then 0 else round2 (m / (ftotal_spec m : ℚ))

/-- Gregorian leap-year test, as used by `Date`. -/
def isLeapYear (y : ℤ) : Bool :=
  y % 4 = 0 && (y % 400 = 0 || y % 100 ≠ 0)

/-- Number of days in month `m` of year `y`. -/
def daysInMonth (y m : ℤ) : ℤ :=
  if m = 2 then (if isLeapYear y then 29 else 28)
  else if m = 4 ∨ m = 6 ∨ m = 9 ∨ m = 11 then 30
  else 31

/-- Days between `1970-01-01` and the civil date `y-m-d`
(Howard Hinnant's `days_from_civil` algorithm, using floored division). -/
def daysFromCivil (y m d : ℤ) : ℤ :=
  let y' := if m ≤ 2 then y - 1 else y
  let era := Int.fdiv y' 400
  let yoe := y' - era * 400
  let mp := (m + 9) % 12
  let doy := Int.fdiv (153 * mp + 2) 5 + d - 1
  let doe := yoe * 365 + Int.fdiv yoe 4 - Int.fdiv yoe 100 + doy
  era * 146097 + doe - 719468

/-- Parse a `YYYY-MM-DD` date string into year/month/day, rejecting strings
that are not in that shape or denote an invalid calendar date
(in JavaScript those yield an invalid `Date`). -/
def parseIsoDate (s : String) : Option (ℤ × ℤ × ℤ) :=
  match s.splitOn "-" with
  | [ys, ms, ds] =>
    if ys.length = 4 ∧ ms.length = 2 ∧ ds.length = 2 then
      match ys.toNat?, ms.toNat?, ds.toNat? with
      | some y, some m, some d =>
        if 1 ≤ m ∧ m ≤ 12 ∧ 1 ≤ d ∧ (d : ℤ) ≤ daysInMonth (y : ℤ) (m : ℤ) then
          some ((y : ℤ), (m : ℤ), (d : ℤ))
        else none
      | _, _, _ => none
    else none
  | _ => none

/-- Model of `new Date(s).getTime()` for the `YYYY-MM-DD` strings the app
stores (UTC midnight, milliseconds since the epoch).  Strings that do not
parse as a calendar date are mapped to `0`. -/
def getTime (s : String) : ℤ :=
  match parseIsoDate s with
  | some (y, m, d) => daysFromCivil y m d * 86400000
  | none => 0

/-- The `calculatedBatches` `useMemo` of the root component: map every batch
through the derivation, then
`.sort((a, b) => new Date(b.startDate).getTime() - new Date(a.startDate).getTime())`.
The ECMAScript sort is stable and orders consecutive elements `a, b` so that
the comparator is `≤ 0`, i.e. `getTime b.startDate ≤ getTime a.startDate`;
it is modelled with the stable `List.mergeSort` and the ordering `dateDescLE`. -/
def dateDescLE (a b : CalculatedBatch) : Bool :=
  decide (getTime b.startDate ≤ getTime a.startDate)

/-- The map-then-sort pipeline itself (`deriveAll` in the spec). -/
def calculatedBatches (batches : List Batch) : List CalculatedBatch :=
  (batches.map deriveBatch).mergeSort dateDescLE

/-- The `batchesByMachine` `useMemo` of `MachinesPage`:
`Array.from({length: N}, (_, i) => i + 1).map(machineNumber => ...)`,
pairing each machine number `1..N` with the calculated batches filtered to
that machine.  `Array.from` clamps a negative length to `0`, hence `Int.toNat`. -/
def batchesByMachine (calculated : List CalculatedBatch)
    (numberOfMachines : ℤ) : List (ℤ × List CalculatedBatch) :=
  (List.range numberOfMachines.toNat).map
    (fun (i : ℕ) => ((i : ℤ) + 1, calculated.filter (fun b => b.machineNumber == (i : ℤ) + 1)))

/-- `addBatch` from `AppProvider`: spread the input, set
`id = Date.now().toString()`, `status = 'In Progress'`, `name = ''`, prepend
to the batch list and set the notification. -/
def addBatch (s : AppState) (now : ℕ) (newBatch : BatchInput) : AppState :=
  let batchWithId : Batch :=
    { id := toString now, name := some "", batchNumber := newBatch.batchNumber,
      machineNumber := newBatch.machineNumber, startDate := newBatch.startDate,
      endDate := newBatch.endDate, meterValue := newBatch.meterValue,
      status := .inProgress, color := newBatch.color, image := newBatch.image }
  { s with batches := batchWithId :: s.batches,
           notification := some "New batch added successfully!" }

/-- `deleteBatch` from `AppProvider`: `filter(b => b.id !== batchId)` and set
the notification (the notification is set unconditionally). -/
def deleteBatch (s : AppState) (batchId : String) : AppState :=
  { s with batches := s.batches.filter (fun b => b.id != batchId),
           notification := some "Batch deleted successfully!" }

/-- `addBatchType` from `AppProvider`: append `{...newBatchType, id}` and set
the notification. -/
def addBatchType (s : AppState) (now : ℕ) (batchNumber color : String) : AppState :=
  { s with batchTypes := s.batchTypes ++ [{ id := toString now, batchNumber := batchNumber, color := color }],
           notification := some "Batch type added successfully!" }

/-- `handleAddBatchType` from `UserDetailsPage`, composed with the context
`addBatchType` it invokes: reject an empty (after `trim`) batch number,
reject a batch number whose upper-cased trimmed form already occurs among
`batchTypes.map(bt => bt.batchNumber.toUpperCase())`, and otherwise append
the new type with the trimmed upper-cased number.  The result is the new
batch-type list together with the notification that was set. -/
def handleAddBatchType (batchTypes : List BatchType) (now : ℕ)
    (newBatchNumber newBatchColor : String) : List BatchType × Option String :=
  if jsTrim newBatchNumber = "" then
    (batchTypes, some "Batch number cannot be empty.")
  else if jsToUpper (jsTrim newBatchNumber) ∈ batchTypes.map (fun bt => jsToUpper bt.batchNumber) then
    (batchTypes, some "Batch number must be unique.")
  else
    (batchTypes ++ [{ id := toString now, batchNumber := jsToUpper (jsTrim newBatchNumber),
                      color := newBatchColor }],
     some "Batch type added successfully!")

/-- `handleSettingsSubmit` from `SettingsPage`: store the form data wholesale
and set the notification.  The handler itself performs no validation of
`numberOfMachines` (the form relies only on an HTML `min="1"` attribute). -/
def handleSettingsSubmit (s : AppState) (formData : Settings) : AppState :=
  { s with settings := some formData,
           notification := some "Company settings updated successfully!" }

/-- `handleComplete` from `SetupWizard`: store the settings only when
`formData.companyName` is truthy (non-empty) and `formData.numberOfMachines > 0`. -/
def handleComplete (s : AppState) (formData : Settings) : AppState :=
  if formData.companyName ≠ "" ∧ 0 < formData.numberOfMachines then
    { s with settings := some formData }
  else s

/-- The seeding `useEffect` of `AppProvider`: whenever settings exist and the
batch list is empty, replace the batch list with the mock batches (status
forced to `'In Progress'`) and the batch-type list with `MOCK_BATCH_TYPES`. -/
def seedEffect (s : AppState) : AppState :=
  if s.settings.isSome ∧ s.batches.length = 0 then
    { s with batches := MOCK_BATCHES.map (fun b => b.withStatus .inProgress),
             batchTypes := MOCK_BATCH_TYPES }
  else s

/-- An app state with no settings and no data. -/
def emptyState : AppState :=
  { settings := none, batches := [], batchTypes := [], notification := none }

/-- The state right after setup completes: settings stored, no batches yet. -/
def freshState : AppState :=
  { settings := some { companyName := "Geetha Tex", numberOfMachines := 3 },
    batches := [], batchTypes := [], notification := none }

/-- The user deliberately deletes every seeded batch (ids `"1"`–`"5"`). -/
def deleteAllSeeded (s : AppState) : AppState :=
  deleteBatch (deleteBatch (deleteBatch (deleteBatch (deleteBatch s "1") "2") "3") "4") "5"

/-- A batch with the scenario meter value `1250.5`. -/
def batch1250 : Batch :=
  { id := "1", name := some "Autumn Collection Run 1", batchNumber := "ACR001",
    machineNumber := 1, startDate := "2023-10-01", endDate := "2023-10-05",
    meterValue := 1250.5, status := .inProgress, color := some "#16a34a" }

/-- A small concrete batch used to instantiate universally quantified theorems. -/
def sampleBatch : Batch :=
  { id := "9", batchNumber := "B9", machineNumber := 1,
    startDate := "2024-01-02", endDate := "2024-01-03",
    meterValue := 2, status := .inProgress }

/-- A concrete batch input used to instantiate `addBatch`. -/
def sampleInput : BatchInput :=
  { batchNumber := "NEW01", machineNumber := 1,
    startDate := "2024-01-02", endDate := "2024-01-03", meterValue := 100 }

/-- A second concrete batch input. -/
def sampleInput2 : BatchInput :=
  { batchNumber := "NEW02", machineNumber := 2,
    startDate := "2024-01-04", endDate := "2024-01-05", meterValue := 200 }

/-- A concrete user-defined batch type. -/
def userType : BatchType :=
  { id := "1", batchNumber := "ACR001", color := "#16a34a" }

/-- A state holding a single batch, with id `"1"`. -/
def oneBatchState : AppState :=
  { settings := none,
    batches := [{ id := "1", batchNumber := "ACR001", machineNumber := 1,
                  startDate := "2023-10-01", endDate := "2023-10-05",
                  meterValue := 1250.5, status := .inProgress }],
    batchTypes := [], notification := none }

/-- A state whose batch-type list was populated by the user while the batch
list is empty. -/
def customTypesState : AppState :=
  { settings := some { companyName := "Acme", numberOfMachines := 2 },
    batches := [],
    batchTypes := [{ id := "42", batchNumber := "USER-TYPE", color := "#000000" }],
    notification := none }

/-- A settings form value with `numberOfMachines = 0` (what `SettingsPage`
holds after the user clears the machines field: `Number('') = 0`). -/
def zeroMachinesForm : Settings :=
  { companyName := "Geetha Tex", numberOfMachines := 0 }

/-! ### Helper lemmas -/

/-- Characterisation of `jsRound` on an interval. -/
theorem jsRound_eq {z : ℤ} {q : ℚ} (h1 : (z : ℚ) ≤ q + 1/2)
    (h2 : q + 1/2 < (z : ℚ) + 1) : jsRound q = z := by
  unfold jsRound
  have hle : z ≤ Rat.floor (q + 1/2) := Rat.le_floor.mpr h1
  have hlt : Rat.floor (q + 1/2) < z + 1 := by
    by_contra hcon
    push_neg at hcon
    have := Rat.le_floor.mp hcon
    push_cast at this
    linarith
  omega

/-- `jsRound` of a nonnegative rational is nonnegative. -/
theorem jsRound_nonneg {q : ℚ} (h : 0 ≤ q) : 0 ≤ jsRound q :=
  Rat.le_floor.mpr (by push_cast; linarith)

/-- Unfolding lemma for the `ftotal` field of the derivation. -/
theorem deriveBatch_ftotal (b : Batch) :
    (deriveBatch b).ftotal = jsRound (b.meterValue / 4) := rfl

/-- Unfolding lemma for the `average` field of the derivation. -/
theorem deriveBatch_average (b : Batch) :
    (deriveBatch b).average =
      if 0 < jsRound (b.meterValue / 4) then
        round2 (b.meterValue / (jsRound (b.meterValue / 4) : ℚ))
      else 0 := rfl

/-- A stable sort leaves the elements of any class of pairwise-tied elements
in their original relative order: filtering the output by such a class gives
the filtered input. -/
theorem mergeSort_filter_stable {α : Type} {le : α → α → Bool}
    (trans : ∀ (a b c : α), le a b → le b c → le a c)
    (total : ∀ (a b : α), le a b || le b a)
    (l : List α) (p : α → Bool) (hp : ∀ a b, p a → p b → le a b) :
    (l.mergeSort le).filter p = l.filter p := by
  have hpw : (l.filter p).Pairwise (fun a b => le a b) :=
    List.pairwise_of_forall_mem_list
      (fun a ha b hb => hp a b (List.of_mem_filter ha) (List.of_mem_filter hb))
  have h1 : List.Sublist (l.filter p) (l.mergeSort le) :=
    List.sublist_mergeSort trans total hpw (List.filter_sublist l)
  have h2 : List.Sublist (l.filter p) ((l.mergeSort le).filter p) := by
    have h3 := h1.filter p
    have h4 : List.filter p (List.filter p l) = List.filter p l := by
      rw [List.filter_filter]
      exact List.filter_congr (fun a _ => Bool.and_self (p a))
    rwa [h4] at h3
  have hlen : ((l.mergeSort le).filter p).length = (l.filter p).length :=
    ((l.mergeSort_perm le).filter p).length_eq
  exact (h2.eq_of_length hlen.symm).symm

/-! ### Claim theorems -/

/-- C1: for every batch with `meterValue > 0`, the derivation computes
`ftotal = round(meterValue / 4)` (nearest-integer rounding, half up), and
`average = 0` when `ftotal = 0`, and `average = meterValue/ftotal` rounded to
two decimal places when `ftotal > 0` — i.e. the code agrees with the
spec-side `ftotal_spec`/`average_spec`. -/
theorem deriveBatch_matches_spec (b : Batch) (h : 0 < b.meterValue) :
    (deriveBatch b).ftotal = ftotal_spec b.meterValue ∧
    (deriveBatch b).average = average_spec b.meterValue := by
  have hnn : 0 ≤ jsRound (b.meterValue / 4) :=
    jsRound_nonneg (le_of_lt (by positivity))
  refine ⟨rfl, ?_⟩
  rw [deriveBatch_average]
  unfold average_spec ftotal_spec
  rcases lt_or_eq_of_le hnn with hpos | hzero
  · rw [if_pos hpos, if_neg (by omega)]
  · rw [if_neg (by omega), if_pos hzero.symm]

/-- Witness for C1 at the concrete batch with `meterValue = 2`. -/
theorem deriveBatch_matches_spec_witness :
    0 < sampleBatch.meterValue ∧
    ((deriveBatch sampleBatch).ftotal = ftotal_spec sampleBatch.meterValue ∧
     (deriveBatch sampleBatch).average = average_spec sampleBatch.meterValue) :=
  ⟨by norm_num [sampleBatch], deriveBatch_matches_spec sampleBatch (by norm_num [sampleBatch])⟩

/-- C2 counterexample: at `meterValue = 1250.5` the code computes
`ftotal = 313` but `average = 4`, not `3.997` as the claim states
(`1250.5/313 ≈ 3.9952`, which rounds to `4.00` at two decimals). -/
theorem derive1250_average_ne_3997 :
    (deriveBatch batch1250).ftotal = 313 ∧
    (deriveBatch batch1250).average ≠ 3997/1000 := by
  have hf : jsRound (batch1250.meterValue / 4) = 313 :=
    jsRound_eq (by norm_num [batch1250]) (by norm_num [batch1250])
  constructor
  · rw [deriveBatch_ftotal, hf]
  · rw [deriveBatch_average, hf, if_pos (by norm_num)]
    unfold round2
    rw [show jsRound (batch1250.meterValue / ((313 : ℤ) : ℚ) * 100) = 400 from
      jsRound_eq (by norm_num [batch1250]) (by norm_num [batch1250])]
    norm_num

/-- C2 amended: at `meterValue = 1250.5` the derivation yields `ftotal = 313`
and `average = 4` (the two-decimal rounding of `1250.5/313 ≈ 3.9952`). -/
theorem derive1250_values :
    (deriveBatch batch1250).ftotal = 313 ∧ (deriveBatch batch1250).average = 4 := by
  have hf : jsRound (batch1250.meterValue / 4) = 313 :=
    jsRound_eq (by norm_num [batch1250]) (by norm_num [batch1250])
  constructor
  · rw [deriveBatch_ftotal, hf]
  · rw [deriveBatch_average, hf, if_pos (by norm_num)]
    unfold round2
    rw [show jsRound (batch1250.meterValue / ((313 : ℤ) : ℚ) * 100) = 400 from
      jsRound_eq (by norm_num [batch1250]) (by norm_num [batch1250])]
    norm_num

/-- C3: the claim says the demonstration dataset is seeded at most once and
must not reappear after the user deliberately deletes every batch.  The code
violates this: the seeding effect fires whenever settings exist and the batch
list is empty, so after seeding once and deleting all five seeded batches
(ids "1"–"5") the effect fires again and the mock batches reappear. -/
theorem seeding_reoccurs_after_deleting_all :
    (deleteAllSeeded (seedEffect freshState)).batches = [] ∧
    (seedEffect (deleteAllSeeded (seedEffect freshState))).batches =
      (seedEffect freshState).batches ∧
    (seedEffect freshState).batches.length = 5 :=
  ⟨rfl, rfl, rfl⟩

/-- C10: whenever the seeding condition holds (settings present, batch list
empty), the effect sets the batch-type list to exactly the six fixed mock
batch types, wholesale replacing whatever batch types were stored. -/
theorem seedEffect_replaces_batchTypes (s : AppState)
    (h1 : s.settings.isSome) (h2 : s.batches = []) :
    (seedEffect s).batchTypes = MOCK_BATCH_TYPES ∧ MOCK_BATCH_TYPES.length = 6 := by
  refine ⟨?_, rfl⟩
  unfold seedEffect
  rw [if_pos ⟨h1, by simp [h2]⟩]

/-- Witness for C10 at a state whose batch-type list holds a user-defined
type while the batch list is empty. -/
theorem seedEffect_replaces_batchTypes_witness :
    (customTypesState.settings.isSome ∧ customTypesState.batches = []) ∧
    ((seedEffect customTypesState).batchTypes = MOCK_BATCH_TYPES ∧
     MOCK_BATCH_TYPES.length = 6) :=
  ⟨⟨rfl, rfl⟩, seedEffect_replaces_batchTypes customTypesState rfl rfl⟩

/-- C4: `calculatedBatches` returns the derived batches sorted in descending
order of start date (as compared through `getTime`), it is a permutation of
the mapped input, and batches with equal `startDate` keep their relative
input order (stability, stated as filter preservation). -/
theorem calculatedBatches_sorted_stable (l : List Batch) :
    (calculatedBatches l).Pairwise
      (fun a b => getTime b.startDate ≤ getTime a.startDate) ∧
    (calculatedBatches l).Perm (l.map deriveBatch) ∧
    ∀ s : String,
      (calculatedBatches l).filter (fun b => b.startDate == s) =
        (l.map deriveBatch).filter (fun b => b.startDate == s) := by
  have htrans : ∀ (a b c : CalculatedBatch),
      dateDescLE a b → dateDescLE b c → dateDescLE a c := by
    intro a b c hab hbc
    simp only [dateDescLE, decide_eq_true_eq] at *
    omega
  have htotal : ∀ (a b : CalculatedBatch), dateDescLE a b || dateDescLE b a := by
    intro a b
    simp only [dateDescLE, Bool.or_eq_true, decide_eq_true_eq]
    omega
  refine ⟨?_, List.mergeSort_perm _ _, ?_⟩
  · exact (List.sorted_mergeSort htrans htotal _).imp
      (fun h => by simpa [dateDescLE] using h)
  · intro s
    exact mergeSort_filter_stable htrans htotal _ _ (fun a b ha hb => by
      simp only [beq_iff_eq] at ha hb
      simp [dateDescLE, ha, hb])

/-- C5: for `numberOfMachines = N ≥ 1`, `batchesByMachine` returns exactly
`N` buckets, numbered `1..N` in order (including empty buckets), and each
bucket holds exactly the calculated batches whose `machineNumber` equals its
number, in the input (`calculatedBatches`) order. -/
theorem batchesByMachine_buckets (cb : List CalculatedBatch) (N : ℤ) (h : 1 ≤ N) :
    ((batchesByMachine cb N).length : ℤ) = N ∧
    (batchesByMachine cb N).map Prod.fst =
      (List.range N.toNat).map (fun (i : ℕ) => (i : ℤ) + 1) ∧
    ∀ p ∈ batchesByMachine cb N,
      p.2 = cb.filter (fun b => b.machineNumber == p.1) := by
  refine ⟨?_, ?_, ?_⟩
  · unfold batchesByMachine
    rw [List.length_map, List.length_range]
    exact Int.toNat_of_nonneg (by omega)
  · unfold batchesByMachine
    rw [List.map_map]
    rfl
  · intro p hp
    unfold batchesByMachine at hp
    rw [List.mem_map] at hp
    obtain ⟨i, hi, rfl⟩ := hp
    rfl

/-- Witness for C5: three machines and no batches give three buckets. -/
theorem batchesByMachine_buckets_witness :
    (1 : ℤ) ≤ 3 ∧
    (((batchesByMachine [] 3).length : ℤ) = 3 ∧
     (batchesByMachine [] 3).map Prod.fst =
       (List.range (3 : ℤ).toNat).map (fun (i : ℕ) => (i : ℤ) + 1) ∧
     ∀ p ∈ batchesByMachine ([] : List CalculatedBatch) 3,
       p.2 = List.filter (fun b => b.machineNumber == p.1) []) :=
  ⟨by decide, batchesByMachine_buckets [] 3 (by decide)⟩

/-- C6 counterexample: deleting a nonexistent id leaves the batch list
unchanged, but it is not silent — the success notification is still set, so
"nothing is signaled" fails. -/
theorem deleteBatch_missing_id_still_notifies :
    (deleteBatch oneBatchState "404").batches = oneBatchState.batches ∧
    (deleteBatch oneBatchState "404").notification ≠ none := by
  refine ⟨rfl, ?_⟩
  rw [show (deleteBatch oneBatchState "404").notification =
        some "Batch deleted successfully!" from rfl]
  exact Option.some_ne_none _

/-- C6 amended: `deleteBatch` keeps exactly the batches whose id differs from
the given one (in order); when no batch has that id the list is unchanged and
no error is signaled, but the success notification is emitted regardless. -/
theorem deleteBatch_spec (s : AppState) (batchId : String) :
    (deleteBatch s batchId).batches = s.batches.filter (fun b => b.id != batchId) ∧
    ((∀ b ∈ s.batches, b.id ≠ batchId) → (deleteBatch s batchId).batches = s.batches) ∧
    (deleteBatch s batchId).notification = some "Batch deleted successfully!" := by
  refine ⟨rfl, ?_, rfl⟩
  intro h
  show s.batches.filter (fun b => b.id != batchId) = s.batches
  rw [List.filter_eq_self]
  intro b hb
  simpa using h b hb

/-- Witness for C6 at a concrete state and a missing id. -/
theorem deleteBatch_spec_witness :
    (∀ b ∈ oneBatchState.batches, b.id ≠ "404") ∧
    (deleteBatch oneBatchState "404").batches = oneBatchState.batches :=
  ⟨by decide, (deleteBatch_spec oneBatchState "404").2.1 (by decide)⟩

/-- C7 counterexample: `addBatch` uses `Date.now().toString()` as the id, so
two batches added in the same millisecond receive the same id — the new id is
not distinct from every existing batch id. -/
theorem addBatch_same_millisecond_duplicate_ids :
    ¬ ((addBatch (addBatch emptyState 1700000000000 sampleInput) 1700000000000
          sampleInput2).batches.map (fun b => b.id)).Nodup := by
  decide

/-- C7 amended: `addBatch` prepends a new batch whose id is the string form
of the current timestamp (not guaranteed distinct from existing ids), whose
status is forced to `InProgress`, and whose remaining fields come from the
input; the existing batches are left unchanged. -/
theorem addBatch_spec (s : AppState) (now : ℕ) (nb : BatchInput) :
    ∃ b : Batch,
      (addBatch s now nb).batches = b :: s.batches ∧
      b.status = BatchStatus.inProgress ∧
      b.id = toString now ∧
      b.batchNumber = nb.batchNumber ∧
      b.machineNumber = nb.machineNumber ∧
      b.startDate = nb.startDate ∧
      b.endDate = nb.endDate ∧
      b.meterValue = nb.meterValue :=
  ⟨_, rfl, rfl, rfl, rfl, rfl, rfl, rfl, rfl⟩

/-- C8 counterexample: an empty batch number is distinct (there is no
existing batch type at all), yet submission is rejected and the list stays
unchanged, so "a distinct batchNumber succeeds" fails as stated. -/
theorem handleAddBatchType_empty_rejected :
    (∀ bt ∈ ([] : List BatchType), jsToUpper (jsTrim "") ≠ jsToUpper bt.batchNumber) ∧
    (handleAddBatchType [] 7 "" "#ffffff").1 = [] ∧
    (handleAddBatchType [] 7 "" "#ffffff").2 = some "Batch number cannot be empty." := by
  refine ⟨?_, rfl, rfl⟩
  intro bt h
  exact absurd h (List.not_mem_nil bt)

/-- C8 amended: a batch number whose trimmed upper-cased form matches an
existing type case-insensitively is rejected with the list unchanged; a
batch number that is non-empty after trimming and case-insensitively
distinct from every existing one is appended (stored trimmed and
upper-cased) and appears in the listing. -/
theorem handleAddBatchType_spec (types : List BatchType) (now : ℕ)
    (num color : String) :
    ((∃ bt ∈ types, jsToUpper (jsTrim num) = jsToUpper bt.batchNumber) →
      (handleAddBatchType types now num color).1 = types) ∧
    (jsTrim num ≠ "" →
      (∀ bt ∈ types, jsToUpper (jsTrim num) ≠ jsToUpper bt.batchNumber) →
      handleAddBatchType types now num color =
        (types ++ [{ id := toString now, batchNumber := jsToUpper (jsTrim num),
                     color := color }],
         some "Batch type added successfully!")) := by
  constructor
  · rintro ⟨bt, hbt, heq⟩
    unfold handleAddBatchType
    by_cases he : jsTrim num = ""
    · rw [if_pos he]
    · rw [if_neg he, if_pos (List.mem_map.mpr ⟨bt, hbt, heq.symm⟩)]
  · intro hne hall
    have hnm : jsToUpper (jsTrim num) ∉ types.map (fun bt => jsToUpper bt.batchNumber) := by
      intro hmem
      obtain ⟨bt, hbt, heq⟩ := List.mem_map.mp hmem
      exact hall bt hbt heq.symm
    unfold handleAddBatchType
    rw [if_neg hne, if_neg hnm]

/-- Witness for C8: a case-insensitive duplicate of `ACR001` is rejected,
and a fresh batch number is appended in upper-cased form. -/
theorem handleAddBatchType_spec_witness :
    (handleAddBatchType [userType] 7 "acr001" "#ffffff").1 = [userType] ∧
    handleAddBatchType [userType] 7 "new01" "#ffffff" =
      ([userType, { id := "7", batchNumber := "NEW01", color := "#ffffff" }],
       some "Batch type added successfully!") := by
  constructor
  · exact (handleAddBatchType_spec [userType] 7 "acr001" "#ffffff").1
      ⟨userType, List.mem_singleton_self _, by decide⟩
  · exact ((handleAddBatchType_spec [userType] 7 "new01" "#ffffff").2
      (by decide) (by decide)).trans (by decide)

/-- C9 counterexample: the settings form's submit handler stores the form
data without validating `numberOfMachines ≥ 1`, so a stored non-null
Settings value can violate the invariant. -/
theorem settingsSubmit_stores_below_one :
    (handleSettingsSubmit emptyState zeroMachinesForm).settings = some zeroMachinesForm ∧
    zeroMachinesForm.numberOfMachines < 1 :=
  ⟨rfl, by decide⟩

/-- C9 amended: the setup wizard blocks completion when
`numberOfMachines < 1` (it checks `> 0`), but the settings form's submit
handler stores whatever the form holds, with no validation. -/
theorem settings_validation_asymmetry :
    (∀ (s : AppState) (fd : Settings),
        fd.numberOfMachines < 1 → handleComplete s fd = s) ∧
    (∀ (s : AppState) (fd : Settings),
        (handleSettingsSubmit s fd).settings = some fd) := by
  constructor
  · intro s fd h
    unfold handleComplete
    rw [if_neg]
    rintro ⟨-, h2⟩
    omega
  · intro s fd
    rfl

/-- Witness for C9 at a concrete state and form value. -/
theorem settings_validation_asymmetry_witness :
    handleComplete emptyState zeroMachinesForm = emptyState ∧
    (handleSettingsSubmit emptyState zeroMachinesForm).settings = some zeroMachinesForm :=
  ⟨settings_validation_asymmetry.1 emptyState zeroMachinesForm (by decide),
   settings_validation_asymmetry.2 emptyState zeroMachinesForm⟩

end GeethaTex
